import Mathlib

/-!
# TripleCross user-space loader: `src/user/kit.c`

A shallow embedding of the ring-buffer event handler `handle_rb_event` and of
`main` (option parsing, skeleton open/load, module setup, ring-buffer creation,
poll loop, cleanup), followed by theorems about them.

Conventions of the embedding.

* Every externally visible action of the program (a `printf`, a write to
  `stderr`, a call into libbpf or into the module manager) is recorded, in
  program order, as a `Call` in a trace.
* The results of the external calls are inputs of the model (`World`).
* The local `__u32 err` of `main` is a natural number below `2 ^ 32`; a C `int`
  assigned to it is reduced with `toU32`, and comparisons against it are done
  on naturals, as the usual arithmetic conversions of C prescribe.
-/

set_option linter.unusedVariables false

namespace Kit

/-! ## Observable actions -/

/-- One variadic argument handed to `printf`. -/
inductive Arg where
  | str (s : String)
  | int (v : Int)
  | chr (c : Char)
  | u32 (v : Nat)
  deriving DecidableEq, Repr

/-- The externally visible actions of `kit.c`, with the result the environment
gave where there is one. `ring_buffer__free true` is a call on a non-NULL
handle, `ring_buffer__free false` a call on `NULL`. -/
inductive Call where
  | printf (fmt : String) (args : List Arg)
  | fprintf_stderr (msg : String)
  | perror (msg : String)
  | kit_bpf__open (ok : Bool)
  | kit_bpf__load (ret : Int)
  | setup_all_modules (ret : Int)
  | ring_buffer__new (ok : Bool)
  | ring_buffer__poll (ret : Int)
  | ring_buffer__free (rb : Bool)
  | kit_bpf__destroy
  deriving DecidableEq, Repr

/-! ## Data model -/

/-- The global `static struct env { bool verbose; } env;` (kit.c, lines 29-31). -/
structure env where
  verbose : Bool
  deriving DecidableEq, Repr

/-- Modelled from the spec: the enumeration behind `rb_event.event_type`, declared in
`common/map_common.h`, which is not among the sources. The five enumerators
are the ones `handle_rb_event` names; `other` stands for every further value
the field can hold. -/
inductive event_type_t where
  | INFO
  | DEBUG
  | ERROR
  | EXIT
  | COMMAND
  | other (tag : Nat)
  deriving DecidableEq, Repr

/-- Modelled from the spec: the record `struct rb_event` of `common/map_common.h`, not
among the sources, reduced to the four fields `handle_rb_event` reads.
`message` is the text `printf` reads through `%s`. -/
structure rb_event where
  event_type : event_type_t
  pid : Int
  code : Int
  message : String
  deriving DecidableEq, Repr

/-- What one call of `handle_rb_event` does: its return value and the lines it
prints, in order. -/
structure Handled where
  ret : Int
  out : List Call
  deriving DecidableEq, Repr

/-! ## `handle_rb_event` (kit.c, lines 87-123) -/

/-- The ring-buffer callback. `CC_PROT_K3_ENCRYPTED_SHELL_TRIGGER_V1` is the
constant of `common/c&c.h` (not among the sources) and is a parameter; `ts` is
the text `strftime` wrote into the local buffer `ts`; `env` is the global of
that name; `ctx`, `e` (the record behind `data`) and `data_size` are the three
C parameters. -/
def handle_rb_event (CC_PROT_K3_ENCRYPTED_SHELL_TRIGGER_V1 : Int) (env : env) (ts : String)
    (ctx : Nat) (e : rb_event) (data_size : Nat) : Handled :=
  if e.event_type = event_type_t.INFO then
    { ret := 0
      out := [Call.printf "%s INFO  pid:%d code:%i, msg:%s\n"
                [Arg.str ts, Arg.int e.pid, Arg.int e.code, Arg.str e.message]] }
  else if e.event_type = event_type_t.DEBUG then
    { ret := 0, out := [] }
  else if e.event_type = event_type_t.ERROR then
    { ret := 0, out := [] }
  else if e.event_type = event_type_t.EXIT then
    { ret := 0, out := [] }
  else if e.event_type = event_type_t.COMMAND then
    { ret := 0
      out :=
        Call.printf "%s COMMAND  pid:%d code:%i\n" [Arg.str ts, Arg.int e.pid, Arg.int e.code] ::
          (if e.code = CC_PROT_K3_ENCRYPTED_SHELL_TRIGGER_V1 then
            [Call.printf "Starting encrypted connection\n" []]
          else
            [Call.printf "Command received unknown: %d\n" [Arg.int e.code]]) }
  else
    { ret := -1
      out := [Call.printf "%s COMMAND  pid:%d code:%i, msg:%s\n"
                [Arg.str ts, Arg.int e.pid, Arg.int e.code, Arg.str e.message]] }

/-- The five event types `handle_rb_event` has a branch for. -/
def recognized : List event_type_t :=
  [event_type_t.INFO, event_type_t.DEBUG, event_type_t.ERROR, event_type_t.EXIT,
    event_type_t.COMMAND]

/-- The trigger step bound to `CC_PROT_K3_ENCRYPTED_SHELL_TRIGGER_V1`. -/
def trigger_action : Call := Call.printf "Starting encrypted connection\n" []

/-- The line of the `default:` arm of the command switch. -/
def unknown_command_line (code : Int) : Call :=
  Call.printf "Command received unknown: %d\n" [Arg.int code]

/-- The first line of the `COMMAND` branch. -/
def command_line (ts : String) (pid code : Int) : Call :=
  Call.printf "%s COMMAND  pid:%d code:%i\n" [Arg.str ts, Arg.int pid, Arg.int code]

/-- The line of the `INFO` branch. -/
def info_line (ts : String) (e : rb_event) : Call :=
  Call.printf "%s INFO  pid:%d code:%i, msg:%s\n"
    [Arg.str ts, Arg.int e.pid, Arg.int e.code, Arg.str e.message]

/-- A `printf` whose format is the one of the INFO line, whatever its
arguments: the shape of the INFO line. -/
def has_info_shape : Call → Bool
  | Call.printf fmt _ => fmt == "%s INFO  pid:%d code:%i, msg:%s\n"
  | _ => false

/-! ## `main` (kit.c, lines 126-256) -/

/-- The conversion of a C `int` to the 32-bit unsigned `__u32`. -/
def toU32 (x : Int) : Nat := (x % 2 ^ 32).toNat

/-- `EXIT_FAILURE` of `stdlib.h`. -/
def EXIT_FAILURE : Int := 1

/-- One return of `getopt(argc, argv, ":t:vh")` other than the final `-1`,
with what the loop body reads next to it: `optarg` and the result of
`if_nametoindex(optarg)` for `t`, `optopt` for the two error returns. -/
inductive Opt where
  | t (optarg : String) (ifindex : Nat)
  | v
  | h
  | unknown (optopt : Char)
  | missing (optopt : Char)
  | other
  deriving DecidableEq, Repr

/-- The results the environment gives to one run of `main`.

`polls` lists the results of the successive `ring_buffer__poll` calls that the
loop `while (!exiting)` can issue: before each of them the flag `exiting` reads
false, and the read that follows the last of them finds it true (the signal
handler has run by then). The empty list is a run whose shutdown signal
arrived before the loop was entered; a loop that breaks leaves the rest of the
list unread, whatever the flag would have been. A run in which the flag is
never set and no poll ends the loop does not return and is not a `World`. -/
structure World where
  argv0 : String
  opts : List Opt
  setrlimit : Int
  kit_bpf__open : Bool
  kit_bpf__load : Int
  setup_all_modules : Int
  ring_buffer__new : Bool
  polls : List Int
  deriving Repr

/-- What a run of `main` leaves behind: the status the process ends with (the
value `main` returns or hands to `exit`), the trace of its actions, and the
last value assigned to the local `err` (`none`: never assigned). -/
structure Outcome where
  status : Int
  trace : List Call
  err : Option Nat
  deriving DecidableEq, Repr

/-- `print_help_dialog` (kit.c, lines 33-47). -/
def print_help_dialog (arg : String) : List Call :=
  [ Call.printf "\nUsage: %s ./kit OPTION\n\n" [Arg.str arg],
    Call.printf "Program OPTIONs\n" [],
    Call.printf "\t%-40s %-50s\n\n" [Arg.str "-t[NETWORK INTERFACE]", Arg.str "Activate XDP filter"],
    Call.printf "\t%-40s %-50s\n\n" [Arg.str "-v", Arg.str "Verbose mode"],
    Call.printf "\t%-40s %-50s\n\n" [Arg.str "-h", Arg.str "Print this help"] ]

/-- How the option loop of `main` ends: the process has called `exit`, or the
loop is over and `main` goes on with the global `env` as the options left
it. -/
inductive Parsed where
  | exited (status : Int) (trace : List Call)
  | done (env : env) (trace : List Call)
  deriving DecidableEq, Repr

/-- The loop `while ((opt = getopt(...)) != -1) switch (opt)` of `main`
(kit.c, lines 143-175), started with the global `env` and the trace so far. -/
def parse_options (argv0 : String) : List Opt → env → List Call → Parsed
  | [], env, tr => Parsed.done env tr
  | Opt.t optarg ifindex :: rest, env, tr =>
    let tr1 := tr ++ [Call.printf "Activating filter on network interface: %s\n" [Arg.str optarg]]
    if ifindex = 0 then
      Parsed.exited EXIT_FAILURE (tr1 ++ [Call.perror "Error on input interface"])
    else
      parse_options argv0 rest env tr1
  | Opt.v :: rest, env, tr => parse_options argv0 rest { env with verbose := true } tr
  | Opt.h :: _, _, tr => Parsed.exited 0 (tr ++ print_help_dialog argv0)
  | Opt.unknown optopt :: _, _, tr =>
    Parsed.exited EXIT_FAILURE (tr ++ [Call.printf "Unknown option: %c\n" [Arg.chr optopt]])
  | Opt.missing optopt :: _, _, tr =>
    Parsed.exited EXIT_FAILURE (tr ++ [Call.printf "Missing arguments for %c\n" [Arg.chr optopt]])
  | Opt.other :: _, _, tr => Parsed.exited EXIT_FAILURE (tr ++ print_help_dialog argv0)

/-- The loop `while (!exiting) { err = ring_buffer__poll(rb, 100); ... }` of
`main` (kit.c, lines 225-237): from the value of `err` on entry and the poll
results still to come, the value of `err` when the loop is left and the
actions of the loop. `err` is the unsigned 32-bit local, so `err < 0` compares
two naturals. -/
def poll_loop (EINTR : Int) : Nat → List Int → Nat × List Call
  | err, [] => (err, [])
  | _, r :: rest =>
    let err := toU32 r
    if err = toU32 (-EINTR) then
      (0, [Call.ring_buffer__poll r])
    else if err < 0 then
      (err, [Call.ring_buffer__poll r, Call.printf "Error polling ring buffer: %d\n" [Arg.u32 err]])
    else
      let next := poll_loop EINTR err rest
      (next.1, Call.ring_buffer__poll r :: next.2)

/-- The label `cleanup:` of `main` (kit.c, lines 251-256), reached with the
handle `rb` (`true`: non-NULL), the value of `err` and the trace so far. The
call `kit_bpf__destroy(skel)` is commented out in the source. -/
def cleanup (rb : Bool) (err : Nat) (tr : List Call) : Outcome :=
  { status := if err ≠ 0 then -1 else 0
    trace := tr ++ [Call.ring_buffer__free rb]
    err := some err }

/-- The function `main`. `EINTR` is the constant of `errno.h`. The calls
`libbpf_set_print` and `signal`, whose results `main` does not look at, and
the stores into the module-manager globals `module_config` and
`module_config_attr` leave no entry in the trace. -/
def main (EINTR : Int) (w : World) : Outcome :=
  match parse_options w.argv0 w.opts { verbose := false } [] with
  | Parsed.exited status tr => { status := status, trace := tr, err := none }
  | Parsed.done _ tr0 =>
    -- bump_memlock_rlimit (kit.c, lines 60-70)
    if w.setrlimit ≠ 0 then
      { status := 1
        trace := tr0 ++ [Call.fprintf_stderr "Failed to increase RLIMIT_MEMLOCK limit!\n"]
        err := none }
    else
      let tr1 := tr0 ++ [Call.kit_bpf__open w.kit_bpf__open]
      if !w.kit_bpf__open then
        { status := 1
          trace := tr1 ++ [Call.fprintf_stderr "Failed to open and load BPF skeleton\n"]
          err := none }
      else
        let err := toU32 w.kit_bpf__load
        let tr2 := tr1 ++ [Call.kit_bpf__load w.kit_bpf__load]
        if err ≠ 0 then
          cleanup false err
            (tr2 ++ [Call.fprintf_stderr "Failed to load and verify BPF skeleton\n"])
        else
          let err := toU32 w.setup_all_modules
          let tr3 := tr2 ++ [Call.setup_all_modules w.setup_all_modules]
          let tr4 := tr3 ++ [Call.ring_buffer__new w.ring_buffer__new]
          if !w.ring_buffer__new then
            let err := toU32 (-1)
            cleanup false err (tr4 ++ [Call.fprintf_stderr "Failed to create ring buffer\n"])
          else
            let loop := poll_loop EINTR err w.polls
            cleanup true loop.1 (tr4 ++ Call.printf "Filter set and ready\n" [] :: loop.2)

/-- The release operations among the actions. -/
def Call.is_release : Call → Bool
  | Call.ring_buffer__free _ => true
  | Call.kit_bpf__destroy => true
  | _ => false

/-- The calls that only write text (`printf`, `fprintf(stderr, ...)`,
`perror`). -/
def Call.is_output : Call → Bool
  | Call.printf _ _ => true
  | Call.fprintf_stderr _ => true
  | Call.perror _ => true
  | _ => false

/-- The line the poll loop prints in its `err < 0` branch. -/
def Call.is_poll_error_line : Call → Bool
  | Call.printf fmt _ => fmt == "Error polling ring buffer: %d\n"
  | _ => false

/-- The `ring_buffer__poll` calls among the actions. -/
def Call.is_poll : Call → Bool
  | Call.ring_buffer__poll _ => true
  | _ => false

/-- A run that gets through option parsing and the rlimit bump: no options,
`setrlimit` succeeds; the remaining results are the arguments. -/
def run (load setup : Int) (rb_ok : Bool) (polls : List Int) : World :=
  { argv0 := "./kit", opts := [], setrlimit := 0, kit_bpf__open := true,
    kit_bpf__load := load, setup_all_modules := setup, ring_buffer__new := rb_ok,
    polls := polls }

/-- The trace a finished option loop carries. -/
def Parsed.trace : Parsed → List Call
  | Parsed.exited _ tr => tr
  | Parsed.done _ tr => tr

/-- The status the parent process reads: the low eight bits of the value
`main` returned or handed to `exit`. -/
def exit_code (o : Outcome) : Int := o.status % 256

/-! ## Theorems about `handle_rb_event` -/

/-- C1: `handle_rb_event` returns -1 exactly when the event type is none of INFO,
DEBUG, ERROR, EXIT, COMMAND; for each of those five it returns 0, whatever the
other fields are; and in the failing case it prints exactly one line, which
carries the pid, the code and the message of the record. -/
theorem handle_rb_event_fails_iff_unrecognized (cc : Int) (env : env) (ts : String) (ctx : Nat)
    (e : rb_event) (data_size : Nat) :
    ((handle_rb_event cc env ts ctx e data_size).ret = -1 ↔ e.event_type ∉ recognized) ∧
    (e.event_type ∈ recognized → (handle_rb_event cc env ts ctx e data_size).ret = 0) ∧
    (e.event_type ∉ recognized →
      (handle_rb_event cc env ts ctx e data_size).out =
        [Call.printf "%s COMMAND  pid:%d code:%i, msg:%s\n"
          [Arg.str ts, Arg.int e.pid, Arg.int e.code, Arg.str e.message]]) := by
  obtain ⟨ty, pid, code, message⟩ := e
  cases ty <;> simp [handle_rb_event, recognized]

/-- Witness for C1 at a record of an unrecognized type and at an INFO record. -/
theorem handle_rb_event_fails_iff_unrecognized_witness :
    (handle_rb_event 7 { verbose := false } "12:00:00" 0
        { event_type := event_type_t.other 9, pid := 42, code := 3, message := "m" } 64).ret = -1 ∧
    (handle_rb_event 7 { verbose := false } "12:00:00" 0
        { event_type := event_type_t.INFO, pid := 42, code := 3, message := "m" } 64).ret = 0 :=
  ⟨(handle_rb_event_fails_iff_unrecognized 7 { verbose := false } "12:00:00" 0
      { event_type := event_type_t.other 9, pid := 42, code := 3, message := "m" } 64).1.2
      (by simp [recognized]),
   (handle_rb_event_fails_iff_unrecognized 7 { verbose := false } "12:00:00" 0
      { event_type := event_type_t.INFO, pid := 42, code := 3, message := "m" } 64).2.1
      (by simp [recognized])⟩

/-- C2: for a COMMAND record whose code is the trigger constant, `handle_rb_event`
prints the COMMAND line with the pid and the code of the record, then performs
the trigger step; the trigger step occurs exactly once in its output, no
unknown-command line occurs, and it returns 0. -/
theorem handle_rb_event_trigger (cc : Int) (env : env) (ts : String) (ctx : Nat)
    (e : rb_event) (data_size : Nat)
    (hty : e.event_type = event_type_t.COMMAND) (hcode : e.code = cc) :
    (handle_rb_event cc env ts ctx e data_size).out =
        [Call.printf "%s COMMAND  pid:%d code:%i\n" [Arg.str ts, Arg.int e.pid, Arg.int e.code],
          trigger_action] ∧
    (handle_rb_event cc env ts ctx e data_size).out.count trigger_action = 1 ∧
    (∀ c : Int, unknown_command_line c ∉ (handle_rb_event cc env ts ctx e data_size).out) ∧
    (handle_rb_event cc env ts ctx e data_size).ret = 0 := by
  obtain ⟨ty, pid, code, message⟩ := e
  simp only at hty hcode
  subst hty hcode
  simp [handle_rb_event, trigger_action, unknown_command_line]

/-- Witness for C2: the record with pid 42 and the trigger code. -/
theorem handle_rb_event_trigger_witness :
    (handle_rb_event 7 { verbose := false } "12:00:00" 0
        { event_type := event_type_t.COMMAND, pid := 42, code := 7, message := "" } 64).out =
      [Call.printf "%s COMMAND  pid:%d code:%i\n" [Arg.str "12:00:00", Arg.int 42, Arg.int 7],
        trigger_action] ∧
    (handle_rb_event 7 { verbose := false } "12:00:00" 0
        { event_type := event_type_t.COMMAND, pid := 42, code := 7, message := "" } 64).ret = 0 :=
  have h := handle_rb_event_trigger 7 { verbose := false } "12:00:00" 0
    { event_type := event_type_t.COMMAND, pid := 42, code := 7, message := "" } 64 rfl rfl
  ⟨h.1, h.2.2.2⟩

/-- C3: for a COMMAND record whose code is not the trigger constant,
`handle_rb_event` prints the COMMAND line with the pid and the code, then the
unknown-command line carrying that same code; the trigger step does not occur
in its output, and it returns 0. -/
theorem handle_rb_event_unknown_command (cc : Int) (env : env) (ts : String) (ctx : Nat)
    (e : rb_event) (data_size : Nat)
    (hty : e.event_type = event_type_t.COMMAND) (hcode : e.code ≠ cc) :
    (handle_rb_event cc env ts ctx e data_size).out =
        [Call.printf "%s COMMAND  pid:%d code:%i\n" [Arg.str ts, Arg.int e.pid, Arg.int e.code],
          Call.printf "Command received unknown: %d\n" [Arg.int e.code]] ∧
    trigger_action ∉ (handle_rb_event cc env ts ctx e data_size).out ∧
    (handle_rb_event cc env ts ctx e data_size).ret = 0 := by
  obtain ⟨ty, pid, code, message⟩ := e
  simp only at hty hcode
  subst hty
  simp [handle_rb_event, trigger_action, hcode]

/-- Witness for C3: a COMMAND record with code 8 when the trigger constant is 7. -/
theorem handle_rb_event_unknown_command_witness :
    (handle_rb_event 7 { verbose := false } "12:00:00" 0
        { event_type := event_type_t.COMMAND, pid := 42, code := 8, message := "" } 64).out =
      [Call.printf "%s COMMAND  pid:%d code:%i\n" [Arg.str "12:00:00", Arg.int 42, Arg.int 8],
        Call.printf "Command received unknown: %d\n" [Arg.int 8]] ∧
    (handle_rb_event 7 { verbose := false } "12:00:00" 0
        { event_type := event_type_t.COMMAND, pid := 42, code := 8, message := "" } 64).ret = 0 :=
  have h := handle_rb_event_unknown_command 7 { verbose := false } "12:00:00" 0
    { event_type := event_type_t.COMMAND, pid := 42, code := 8, message := "" } 64 rfl (by decide)
  ⟨h.1, h.2.2⟩

/-- C9, as stated, fails: called with `data_size = 0`, below the size of any
record, on an INFO record, `handle_rb_event` returns 0 and prints the INFO line
with the fields of the record. -/
theorem handle_rb_event_short_buffer_dispatched :
    (handle_rb_event 7 { verbose := false } "12:00:00" 0
        { event_type := event_type_t.INFO, pid := 42, code := 3, message := "m" } 0).ret = 0 ∧
    (handle_rb_event 7 { verbose := false } "12:00:00" 0
        { event_type := event_type_t.INFO, pid := 42, code := 3, message := "m" } 0).out =
      [Call.printf "%s INFO  pid:%d code:%i, msg:%s\n"
        [Arg.str "12:00:00", Arg.int 42, Arg.int 3, Arg.str "m"]] := by
  constructor <;> rfl

/-- C9, amended: `handle_rb_event` does not consult `data_size`. Its return value
and its output are the same for every two values of `data_size`, and at every
`data_size` an INFO record returns 0 with its INFO line and a COMMAND record
returns 0 with the COMMAND line first. -/
theorem handle_rb_event_ignores_data_size (cc : Int) (env : env) (ts : String) (ctx : Nat)
    (e : rb_event) (d1 d2 : Nat) :
    handle_rb_event cc env ts ctx e d1 = handle_rb_event cc env ts ctx e d2 ∧
    (e.event_type = event_type_t.INFO →
      handle_rb_event cc env ts ctx e d1 = { ret := 0, out := [info_line ts e] }) ∧
    (e.event_type = event_type_t.COMMAND →
      (handle_rb_event cc env ts ctx e d1).ret = 0 ∧
      (handle_rb_event cc env ts ctx e d1).out.head? = some (command_line ts e.pid e.code)) := by
  obtain ⟨ty, pid, code, message⟩ := e
  refine ⟨rfl, ?_, ?_⟩
  · intro h
    simp only at h
    subst h
    simp [handle_rb_event, info_line]
  · intro h
    simp only at h
    subst h
    simp [handle_rb_event, command_line]

/-- Witness for the amended C9: sizes 0 and 64 on an INFO record. -/
theorem handle_rb_event_ignores_data_size_witness :
    handle_rb_event 7 { verbose := false } "12:00:00" 0
        { event_type := event_type_t.INFO, pid := 42, code := 3, message := "m" } 0 =
      { ret := 0
        out := [info_line "12:00:00"
          { event_type := event_type_t.INFO, pid := 42, code := 3, message := "m" }] } :=
  (handle_rb_event_ignores_data_size 7 { verbose := false } "12:00:00" 0
    { event_type := event_type_t.INFO, pid := 42, code := 3, message := "m" } 0 64).2.1 rfl

/-- C10, as stated, fails: with `env.verbose` true, a DEBUG record makes
`handle_rb_event` print nothing, so no line of the INFO shape is emitted. -/
theorem handle_rb_event_debug_verbose_silent :
    ({ verbose := true } : env).verbose = true ∧
    (handle_rb_event 7 { verbose := true } "12:00:00" 0
        { event_type := event_type_t.DEBUG, pid := 42, code := 3, message := "m" } 64).out = [] ∧
    ¬ ∃ c ∈ (handle_rb_event 7 { verbose := true } "12:00:00" 0
        { event_type := event_type_t.DEBUG, pid := 42, code := 3, message := "m" } 64).out,
        has_info_shape c = true := by
  refine ⟨rfl, rfl, ?_⟩
  simp [handle_rb_event]

/-- C10, amended: for every DEBUG record `handle_rb_event` prints nothing and
returns 0, whether `env.verbose` is false or true. -/
theorem handle_rb_event_debug_silent (cc : Int) (env : env) (ts : String) (ctx : Nat)
    (e : rb_event) (data_size : Nat) (hty : e.event_type = event_type_t.DEBUG) :
    (handle_rb_event cc env ts ctx e data_size).out = [] ∧
    (handle_rb_event cc env ts ctx e data_size).ret = 0 := by
  obtain ⟨ty, pid, code, message⟩ := e
  simp only at hty
  subst hty
  simp [handle_rb_event]

/-- Witness for the amended C10, at `env.verbose` true. -/
theorem handle_rb_event_debug_silent_witness :
    (handle_rb_event 7 { verbose := true } "12:00:00" 0
        { event_type := event_type_t.DEBUG, pid := 42, code := 3, message := "m" } 64).out = [] ∧
    (handle_rb_event 7 { verbose := true } "12:00:00" 0
        { event_type := event_type_t.DEBUG, pid := 42, code := 3, message := "m" } 64).ret = 0 :=
  handle_rb_event_debug_silent 7 { verbose := true } "12:00:00" 0
    { event_type := event_type_t.DEBUG, pid := 42, code := 3, message := "m" } 64 rfl

/-! ## Lemmas about the option loop and the poll loop -/

/-- The option loop only adds text output to the trace, and never the error
line of the poll loop. -/
theorem parse_options_output (argv0 : String) (opts : List Opt) :
    ∀ (env : env) (tr : List Call),
      (∀ c ∈ tr, c.is_output = true ∧ c.is_poll_error_line = false) →
      ∀ c ∈ (parse_options argv0 opts env tr).trace,
        c.is_output = true ∧ c.is_poll_error_line = false := by
  induction opts with
  | nil =>
    intro env tr htr c hc
    simpa [parse_options, Parsed.trace] using htr c hc
  | cons o rest ih =>
    intro env tr htr c hc
    cases o with
    | t optarg ifindex =>
      by_cases hz : ifindex = 0
      · simp [parse_options, hz, Parsed.trace] at hc
        rcases hc with hc | hc | hc
        · exact htr c hc
        · subst hc; exact ⟨rfl, rfl⟩
        · subst hc; exact ⟨rfl, rfl⟩
      · simp only [parse_options, hz, if_false] at hc
        refine ih env _ ?_ c hc
        intro d hd
        simp at hd
        rcases hd with hd | hd
        · exact htr d hd
        · subst hd; exact ⟨rfl, rfl⟩
    | v =>
      simp only [parse_options] at hc
      exact ih _ tr htr c hc
    | h =>
      simp [parse_options, Parsed.trace, print_help_dialog] at hc
      rcases hc with hc | hc | hc | hc | hc | hc
      · exact htr c hc
      all_goals subst hc; exact ⟨rfl, rfl⟩
    | unknown optopt =>
      simp [parse_options, Parsed.trace] at hc
      rcases hc with hc | hc
      · exact htr c hc
      · subst hc; exact ⟨rfl, rfl⟩
    | missing optopt =>
      simp [parse_options, Parsed.trace] at hc
      rcases hc with hc | hc
      · exact htr c hc
      · subst hc; exact ⟨rfl, rfl⟩
    | other =>
      simp [parse_options, Parsed.trace, print_help_dialog] at hc
      rcases hc with hc | hc | hc | hc | hc | hc
      · exact htr c hc
      all_goals subst hc; exact ⟨rfl, rfl⟩

/-- One step of the poll loop, the `err < 0` test evaluated: on an unsigned
`err` it never holds. -/
theorem poll_loop_cons (EINTR : Int) (err : Nat) (r : Int) (rest : List Int) :
    poll_loop EINTR err (r :: rest) =
      if toU32 r = toU32 (-EINTR) then (0, [Call.ring_buffer__poll r])
      else ((poll_loop EINTR (toU32 r) rest).1,
            Call.ring_buffer__poll r :: (poll_loop EINTR (toU32 r) rest).2) := by
  simp [poll_loop]

/-- The poll loop performs `ring_buffer__poll` calls and nothing else. -/
theorem poll_loop_only_polls (EINTR : Int) (polls : List Int) :
    ∀ (err : Nat), ∀ c ∈ (poll_loop EINTR err polls).2, c.is_poll = true := by
  induction polls with
  | nil => intro err c hc; simp [poll_loop] at hc
  | cons r rest ih =>
    intro err c hc
    rw [poll_loop_cons] at hc
    split at hc
    · simp at hc; subst hc; rfl
    · simp at hc
      rcases hc with hc | hc
      · subst hc; rfl
      · exact ih _ c hc

/-- A poll that returned `-EINTR` is the last action of the poll loop, and the
loop leaves `err` at 0. -/
theorem poll_loop_eintr (EINTR : Int) (polls : List Int) :
    ∀ (err : Nat), Call.ring_buffer__poll (-EINTR) ∈ (poll_loop EINTR err polls).2 →
      (poll_loop EINTR err polls).1 = 0 ∧
      ∃ before, (poll_loop EINTR err polls).2 = before ++ [Call.ring_buffer__poll (-EINTR)] := by
  induction polls with
  | nil => intro err h; simp [poll_loop] at h
  | cons r rest ih =>
    intro err h
    rw [poll_loop_cons] at h ⊢
    split
    · rename_i heq
      rw [if_pos heq] at h
      simp at h
      subst h
      exact ⟨rfl, [], rfl⟩
    · rename_i hne
      rw [if_neg hne] at h
      simp at h
      rcases h with h | h
      · exact absurd (by rw [h]) hne
      · obtain ⟨h1, before, h2⟩ := ih _ h
        refine ⟨h1, Call.ring_buffer__poll r :: before, ?_⟩
        simp [h2]

/-- No run of `main` prints the error line of the poll loop. -/
theorem main_no_poll_error_line (EINTR : Int) (w : World) :
    ∀ c ∈ (main EINTR w).trace, c.is_poll_error_line = false := by
  have hopt := parse_options_output w.argv0 w.opts { verbose := false } [] (by simp)
  have hloop : ∀ c ∈ (poll_loop EINTR (toU32 w.setup_all_modules) w.polls).2,
      c.is_poll_error_line = false := by
    intro c hc
    have := poll_loop_only_polls EINTR w.polls _ c hc
    cases c <;> simp_all [Call.is_poll, Call.is_poll_error_line]
  unfold main
  cases hp : parse_options w.argv0 w.opts { verbose := false } [] with
  | exited status tr =>
    rw [hp] at hopt
    intro c hc
    exact (hopt c hc).2
  | done env tr0 =>
    rw [hp] at hopt
    simp only [Parsed.trace] at hopt ⊢
    intro c hc
    by_cases hr : w.setrlimit = 0 <;> by_cases ho : w.kit_bpf__open = true <;>
      by_cases hl : toU32 w.kit_bpf__load = 0 <;> by_cases hn : w.ring_buffer__new = true <;>
      simp [hr, ho, hl, hn, cleanup] at hc <;>
      (repeat (first
        | exact (hopt c hc).2
        | exact hloop c hc
        | (subst hc; rfl)
        | (rcases hc with hc | hc)))

/-- Text output contains no release, no ring-buffer creation, no skeleton open
and no skeleton destruction. -/
theorem filter_release_of_output (tr : List Call)
    (h : ∀ c ∈ tr, c.is_output = true ∧ c.is_poll_error_line = false) :
    tr.filter Call.is_release = [] ∧ Call.ring_buffer__new true ∉ tr ∧
    Call.kit_bpf__open true ∉ tr ∧ Call.kit_bpf__destroy ∉ tr := by
  refine ⟨?_, ?_, ?_, ?_⟩
  · rw [List.filter_eq_nil_iff]
    intro c hc
    have := (h c hc).1
    cases c <;> simp_all [Call.is_output, Call.is_release]
  all_goals
    intro hc
    exact absurd (h _ hc).1 (by simp [Call.is_output])

/-- A trace of polls contains no release, no ring-buffer creation and no
skeleton destruction. -/
theorem filter_release_of_polls (tr : List Call) (h : ∀ c ∈ tr, c.is_poll = true) :
    tr.filter Call.is_release = [] ∧ Call.ring_buffer__new true ∉ tr ∧
    Call.kit_bpf__destroy ∉ tr := by
  refine ⟨?_, ?_, ?_⟩
  · rw [List.filter_eq_nil_iff]
    intro c hc
    have := h c hc
    cases c <;> simp_all [Call.is_poll, Call.is_release]
  all_goals
    intro hc
    exact absurd (h _ hc) (by simp [Call.is_poll])

/-! ## Theorems about `main` -/

/-- C4, evaluated at a run with no fatal error: open, load, module setup and
ring-buffer creation succeed, the only poll returns the record count 3, and
the shutdown request follows. `main` leaves the count in `err` and returns -1,
so the process ends with status 255, where the claim says 0. -/
theorem main_positive_count_exits_nonzero :
    main 4 (run 0 0 true [3]) =
      { status := -1
        trace := [Call.kit_bpf__open true, Call.kit_bpf__load 0, Call.setup_all_modules 0,
          Call.ring_buffer__new true, Call.printf "Filter set and ready\n" [],
          Call.ring_buffer__poll 3, Call.ring_buffer__free true]
        err := some 3 } ∧
    exit_code (main 4 (run 0 0 true [3])) = 255 := by
  constructor <;> rfl

/-- C5, evaluated at a run whose first poll fails with -9 (`-EBADF`, not
`-EINTR`) while `exiting` is still false: the test `err < 0` on the unsigned
`err` does not fire, a second poll is issued, no error line is printed, and
with that second poll returning 0 `main` returns 0. -/
theorem main_failed_poll_keeps_polling :
    main 4 (run 0 0 true [-9, 0]) =
      { status := 0
        trace := [Call.kit_bpf__open true, Call.kit_bpf__load 0, Call.setup_all_modules 0,
          Call.ring_buffer__new true, Call.printf "Filter set and ready\n" [],
          Call.ring_buffer__poll (-9), Call.ring_buffer__poll 0, Call.ring_buffer__free true]
        err := some 0 } := by
  rfl

/-- C6: in every run of `main` in which a `ring_buffer__poll` call returns
`-EINTR`, that poll is the last action before cleanup (the trace ends with it
and the `ring_buffer__free` of the created ring buffer), `err` is 0 at the
end, `main` returns 0, and the error line of the poll loop is printed nowhere
in the run. Nothing is assumed about the polls before it, nor about the flag
`exiting` after it (the rest of `polls` is arbitrary). -/
theorem main_eintr_ends_cleanly (EINTR : Int) (w : World)
    (h : Call.ring_buffer__poll (-EINTR) ∈ (main EINTR w).trace) :
    (main EINTR w).status = 0 ∧ (main EINTR w).err = some 0 ∧
    (∀ c ∈ (main EINTR w).trace, c.is_poll_error_line = false) ∧
    ∃ before, (main EINTR w).trace =
      before ++ [Call.ring_buffer__poll (-EINTR), Call.ring_buffer__free true] := by
  refine ⟨?_, ?_, main_no_poll_error_line EINTR w, ?_⟩ <;>
  · have hopt := parse_options_output w.argv0 w.opts { verbose := false } [] (by simp)
    have hnot : ∀ tr : List Call, (∀ c ∈ tr, c.is_output = true ∧ c.is_poll_error_line = false) →
        Call.ring_buffer__poll (-EINTR) ∉ tr := fun tr htr hmem =>
      absurd (htr _ hmem).1 (by simp [Call.is_output])
    unfold main at h ⊢
    cases hp : parse_options w.argv0 w.opts { verbose := false } [] with
    | exited status tr =>
      rw [hp] at hopt h
      simp only [Parsed.trace] at hopt h
      exact absurd h (hnot _ hopt)
    | done env tr0 =>
      rw [hp] at hopt h
      simp only [Parsed.trace] at hopt h ⊢
      have h0 := hnot _ hopt
      by_cases hr : w.setrlimit = 0
      swap
      · simp [hr, h0] at h
      by_cases ho : w.kit_bpf__open = true
      swap
      · simp [hr, ho, h0] at h
      by_cases hl : toU32 w.kit_bpf__load = 0
      swap
      · simp [hr, ho, hl, h0, cleanup] at h
      by_cases hn : w.ring_buffer__new = true
      swap
      · simp [hr, ho, hl, hn, h0, cleanup] at h
      simp only [hr, ho, hl, hn, cleanup] at h ⊢
      simp [h0] at h
      obtain ⟨h1, before, h2⟩ := poll_loop_eintr EINTR w.polls _ h
      simp [h1, h2]
      try exact ⟨tr0 ++ Call.kit_bpf__open true :: Call.kit_bpf__load w.kit_bpf__load ::
        Call.setup_all_modules w.setup_all_modules :: Call.ring_buffer__new true ::
        Call.printf "Filter set and ready\n" [] :: before, by simp⟩

/-- Witness for C6: polls returning 2, then -4 (`-EINTR` with `EINTR = 4`); a
further result 7 is never asked for. -/
theorem main_eintr_ends_cleanly_witness :
    Call.ring_buffer__poll (-4) ∈ (main 4 (run 0 0 true [2, -4, 7])).trace ∧
    (main 4 (run 0 0 true [2, -4, 7])).status = 0 ∧
    (main 4 (run 0 0 true [2, -4, 7])).err = some 0 :=
  have h := main_eintr_ends_cleanly 4 (run 0 0 true [2, -4, 7]) (by decide)
  ⟨by decide, h.1, h.2.1⟩

/-- C7, evaluated at a run in which `setup_all_modules` returns -1: `main` does
not test that result, creates the ring buffer, polls, and, the poll returning
0 before the shutdown request, returns 0. -/
theorem main_setup_failure_not_checked :
    main 4 (run 0 (-1) true [0]) =
      { status := 0
        trace := [Call.kit_bpf__open true, Call.kit_bpf__load 0, Call.setup_all_modules (-1),
          Call.ring_buffer__new true, Call.printf "Filter set and ready\n" [],
          Call.ring_buffer__poll 0, Call.ring_buffer__free true]
        err := some 0 } := by
  rfl

/-- C8, as stated, fails: in a run that opened the program set and created the
ring buffer, the only release operation `main` performs is the
`ring_buffer__free`; `kit_bpf__destroy` is never called. -/
theorem main_never_destroys_skeleton :
    Call.kit_bpf__open true ∈ (main 4 (run 0 0 true [0])).trace ∧
    Call.ring_buffer__new true ∈ (main 4 (run 0 0 true [0])).trace ∧
    (main 4 (run 0 0 true [0])).trace.filter Call.is_release = [Call.ring_buffer__free true] ∧
    Call.kit_bpf__destroy ∉ (main 4 (run 0 0 true [0])).trace := by
  decide

/-- C8, amended: in every run of `main` in which `kit_bpf__open` succeeded, the
last action is one `ring_buffer__free` call, it is the only release operation
of the run, it is made on a non-NULL handle exactly when `ring_buffer__new`
had succeeded, and `kit_bpf__destroy` is not called. -/
theorem main_releases_ring_buffer_only (EINTR : Int) (w : World)
    (h : Call.kit_bpf__open true ∈ (main EINTR w).trace) :
    ∃ before rb, (main EINTR w).trace = before ++ [Call.ring_buffer__free rb] ∧
      before.filter Call.is_release = [] ∧
      (rb = true ↔ Call.ring_buffer__new true ∈ before) ∧
      Call.kit_bpf__destroy ∉ (main EINTR w).trace := by
  have hopt := parse_options_output w.argv0 w.opts { verbose := false } [] (by simp)
  have hloop := filter_release_of_polls _
    (poll_loop_only_polls EINTR w.polls (toU32 w.setup_all_modules))
  unfold main at h ⊢
  cases hp : parse_options w.argv0 w.opts { verbose := false } [] with
  | exited status tr =>
    rw [hp] at hopt h
    simp only [Parsed.trace] at hopt h
    exact absurd h (filter_release_of_output _ hopt).2.2.1
  | done env tr0 =>
    rw [hp] at hopt h
    simp only [Parsed.trace] at hopt h ⊢
    obtain ⟨f0, n0, o0, d0⟩ := filter_release_of_output _ hopt
    by_cases hr : w.setrlimit = 0
    swap
    · simp [hr, o0] at h
    by_cases ho : w.kit_bpf__open = true
    swap
    · simp [hr, ho, o0] at h
    by_cases hl : toU32 w.kit_bpf__load = 0
    swap
    · refine ⟨tr0 ++ [Call.kit_bpf__open true, Call.kit_bpf__load w.kit_bpf__load,
        Call.fprintf_stderr "Failed to load and verify BPF skeleton\n"], false, ?_, ?_, ?_, ?_⟩
      · simp [hr, ho, hl, cleanup]
      · simp [List.filter_append, f0, Call.is_release, List.filter_cons]
      · simp [n0]
      · simp [hr, ho, hl, cleanup, d0]
    by_cases hn : w.ring_buffer__new = true
    swap
    · refine ⟨tr0 ++ [Call.kit_bpf__open true, Call.kit_bpf__load w.kit_bpf__load,
        Call.setup_all_modules w.setup_all_modules, Call.ring_buffer__new false,
        Call.fprintf_stderr "Failed to create ring buffer\n"], false, ?_, ?_, ?_, ?_⟩
      · simp [hr, ho, hl, hn, cleanup]
      · simp [List.filter_append, f0, Call.is_release, List.filter_cons]
      · simp [n0]
      · simp [hr, ho, hl, hn, cleanup, d0]
    · refine ⟨tr0 ++ [Call.kit_bpf__open true, Call.kit_bpf__load w.kit_bpf__load,
        Call.setup_all_modules w.setup_all_modules, Call.ring_buffer__new true,
        Call.printf "Filter set and ready\n" []] ++
        (poll_loop EINTR (toU32 w.setup_all_modules) w.polls).2, true, ?_, ?_, ?_, ?_⟩
      · simp [hr, ho, hl, hn, cleanup]
      · simp [List.filter_append, f0, Call.is_release, List.filter_cons, hloop.1]
      · simp [n0]
      · simp [hr, ho, hl, hn, cleanup, d0, hloop.2.2]

/-- Witness for the amended C8: a run with one poll before the shutdown
request. -/
theorem main_releases_ring_buffer_only_witness :
    Call.kit_bpf__open true ∈ (main 4 (run 0 0 true [0])).trace ∧
    ∃ before rb, (main 4 (run 0 0 true [0])).trace = before ++ [Call.ring_buffer__free rb] ∧
      before.filter Call.is_release = [] ∧
      (rb = true ↔ Call.ring_buffer__new true ∈ before) ∧
      Call.kit_bpf__destroy ∉ (main 4 (run 0 0 true [0])).trace :=
  ⟨by decide, main_releases_ring_buffer_only 4 (run 0 0 true [0]) (by decide)⟩

end Kit
